import Mathlib

/-!
Shallow embedding of the Roth Touchline protocol core
(`custom_components/roth_touchline/xml_parser.py`,
`custom_components/roth_touchline/hub.py`,
`custom_components/roth_touchline/coordinator.py`), together with
proofs about the codec, the zone mapper, the device client and the
refresh coordinator.

Modelling conventions:
* `xml.etree.ElementTree` elements are modelled by the `Element` tree
  (tag, text before the first child, list of children); the code uses no
  attributes and no tail text, so those are omitted.
* `ET.fromstring` is a library call that either yields an element tree
  or raises `ParseError`; its outcome is passed in as an
  `Except ParseError Element` value.
* Python truthiness is modelled explicitly where the code relies on it:
  an `Element` is truthy iff it has children, a string iff it is
  non-empty, `None` is falsy.
* Python `dict` is modelled as an association list with
  insert-or-update semantics (`dictInsert`).
* Python `float(...)` applied to a string is modelled by `pyFloat`,
  which follows the accepted grammar (optional surrounding whitespace,
  optional sign, decimal digits with single underscores between digits,
  optional fraction and exponent, and the case-insensitive spellings
  inf/infinity/nan).  Finite values are represented exactly as
  rationals; the concrete values exercised below are exactly
  representable IEEE doubles as well.
* Timestamps (`datetime.now(timezone.utc)`) are an abstract parameter.
-/

namespace RothTouchline

/-- Model of an `xml.etree.ElementTree.Element`: tag name, text content
before the first child (`.text`, `none` when absent), and the list of
child elements.  The parsing code uses no attributes and no tails. -/
structure Element where
  tag : String
  text : Option String
  children : List Element

/-- All descendants of the elements of a list, in document order (each
element followed by its own descendants).  `root.findall(".//t")`
searches exactly these, starting from `root.children`. -/
def descendantsAll : List Element → List Element
  | [] => []
  | c :: rest => c :: (descendantsAll c.children ++ descendantsAll rest)
termination_by l => sizeOf l
decreasing_by
  · cases c
    simp
    omega
  · simp

/-- `root.findall(".//t")`: every descendant of `root` (the root itself
excluded) whose tag is `t`, in document order. -/
def findall (t : String) (root : Element) : List Element :=
  (descendantsAll root.children).filter (fun d => d.tag = t)

/-- `e.find(t)`: the first direct child of `e` whose tag is `t`. -/
def findChild (t : String) (e : Element) : Option Element :=
  e.children.find? (fun c => c.tag = t)

/-- Python truthiness of an `ElementTree` element (or `None`): `None`
is falsy, and an element is truthy iff it has at least one child
(`Element.__bool__` is `len(self) != 0`). -/
def pyTruthyElem : Option Element → Bool
  | none => false
  | some e => !e.children.isEmpty

/-- Python `a or b` on optional elements: yields `a` when `a` is
truthy, otherwise `b`.  This is the semantics of
`item.find("name") or item.find("n")` in the source. -/
def pyOrElem (a b : Option Element) : Option Element :=
  if pyTruthyElem a then a else b

/-- Python truthiness of `elem.text` (an optional string): `None` and
the empty string are falsy. -/
def pyTruthyText : Option String → Bool
  | none => false
  | some s => !s.isEmpty

/-- A parse failure raised by `ET.fromstring` (`xml.etree.ElementTree.ParseError`). -/
structure ParseError where
  msg : String

/-- Raw register-name to raw-string-value mapping produced by parsing
one response payload; a Python `dict[str, str]`. -/
abbrev RawValueMap := List (String × String)

/-- Python `d[k] = v` on a dict modelled as an association list: update
the existing binding in place, or append a new one. -/
def dictInsert {α : Type} (m : List (String × α)) (k : String) (v : α) :
    List (String × α) :=
  if m.any (fun p => p.1 = k) then
    m.map (fun p => if p.1 = k then (k, v) else p)
  else
    m ++ [(k, v)]

/-- Python `d.get(k)` / `k in d` lookup on the association-list dict. -/
def dictLookup {α : Type} (m : List (String × α)) (k : String) : Option α :=
  (m.find? (fun p => p.1 = k)).map (fun p => p.2)

/-- The item list iterated by `parse_values_response`:
`root.findall(".//item") or root.findall(".//i")` — the `i` elements
are consulted only when no `item` element exists (an empty list is
falsy). -/
def itemsOf (root : Element) : List Element :=
  let long := findall "item" root
  if long.isEmpty then findall "i" root else long

/-- One loop iteration of `parse_values_response`: locate the name and
value elements (with Python `or` fallback and element truthiness),
and insert the pair when both texts are truthy (non-`None`,
non-empty). -/
def processItem (m : RawValueMap) (item : Element) : RawValueMap :=
  let nameElem := pyOrElem (findChild "name" item) (findChild "n" item)
  let valueElem := pyOrElem (findChild "value" item) (findChild "v" item)
  match nameElem, valueElem with
  | some ne, some ve =>
    if pyTruthyText ne.text && pyTruthyText ve.text then
      dictInsert m (ne.text.getD "") (ve.text.getD "")
    else m
  | _, _ => m

/-- Spec-side description of the name/value pair one `item` element
contributes: the name and value elements located by the code's find
logic, kept only when both texts are non-empty.  `none` when the pair
is unmatched or a text is missing or empty. -/
def matchedPair (item : Element) : Option (String × String) :=
  match pyOrElem (findChild "name" item) (findChild "n" item),
      pyOrElem (findChild "value" item) (findChild "v" item) with
  | some ne, some ve =>
    if pyTruthyText ne.text && pyTruthyText ve.text then
      some (ne.text.getD "", ve.text.getD "")
    else none
  | _, _ => none

/-- `RothTouchlineXMLParser.parse_values_response`.  The surrounding
code strips the input and calls `ET.fromstring`; that library call's
outcome is the argument.  A `ParseError` (and any other exception) is
caught and the accumulated `values` dict — still empty at that point —
is returned. -/
def parse_values_response : Except ParseError Element → RawValueMap
  | .error _ => []
  | .ok root => (itemsOf root).foldl processItem []

/-- Value of a Python float produced by `float(str)`: a finite value
(kept exact as a rational; every value the claims exercise is an
exactly representable double), or one of the special values. -/
inductive PyFloatVal
  | finite (q : ℚ)
  | inf
  | ninf
  | nan
deriving DecidableEq, Repr

/-- ASCII decimal digit test. -/
def isAsciiDigit (c : Char) : Bool := '0' ≤ c && c ≤ '9'

/-- Numeric value of an ASCII digit. -/
def digitVal (c : Char) : ℕ := c.toNat - '0'.toNat

/-- Continue a `digitpart` (CPython float grammar): further digits,
each optionally preceded by a single underscore that must sit between
two digits.  Returns the digits read and the unconsumed rest. -/
def digitPartGo (acc : List ℕ) : List Char → (List ℕ × List Char)
  | '_' :: c :: cs =>
    if isAsciiDigit c then digitPartGo (acc ++ [digitVal c]) cs else (acc, '_' :: c :: cs)
  | c :: cs =>
    if isAsciiDigit c then digitPartGo (acc ++ [digitVal c]) cs else (acc, c :: cs)
  | [] => (acc, [])

/-- A `digitpart` of the CPython float grammar: at least one digit,
then `digitPartGo`; fails when the input does not start with a digit. -/
def digitPart : List Char → Option (List ℕ × List Char)
  | c :: cs => if isAsciiDigit c then some (digitPartGo [digitVal c] cs) else none
  | [] => none

/-- Value of a digit sequence read in base 10. -/
def digitsToNat (ds : List ℕ) : ℕ := ds.foldl (fun a d => 10 * a + d) 0

/-- Value of `intpart.fracpart` as an exact numerator/denominator pair
(the denominator is the power of ten of the fraction length). -/
def decVal (ds fs : List ℕ) : ℕ × ℕ :=
  (digitsToNat ds * 10 ^ fs.length + digitsToNat fs, 10 ^ fs.length)

/-- Mantissa of a float literal: `digits [. [digits]]` or `. digits`.
Returns the numerator/denominator pair and the unconsumed rest. -/
def parseMantissa (cs : List Char) : Option ((ℕ × ℕ) × List Char) :=
  match digitPart cs with
  | some (ds, rest) =>
    match rest with
    | '.' :: rest2 =>
      match digitPart rest2 with
      | some (fs, rest3) => some (decVal ds fs, rest3)
      | none => some (decVal ds [], rest2)
    | _ => some ((digitsToNat ds, 1), rest)
  | none =>
    match cs with
    | '.' :: rest2 =>
      match digitPart rest2 with
      | some (fs, rest3) => some (decVal [] fs, rest3)
      | none => none
    | _ => none

/-- Exact rational value of a parsed literal: sign, mantissa
numerator/denominator and decimal exponent. -/
def litVal (neg : Bool) (m : ℕ × ℕ) (ex : ℤ) : ℚ :=
  let scaled : ℕ × ℕ := match ex with
    | .ofNat k => (m.1 * 10 ^ k, m.2)
    | .negSucc k => (m.1, m.2 * 10 ^ (k + 1))
  mkRat (if neg then -(scaled.1 : ℤ) else (scaled.1 : ℤ)) scaled.2

/-- Exponent digits with an optional sign. -/
def parseSignedDigits (cs : List Char) : Option (ℤ × List Char) :=
  match cs with
  | '+' :: r => (digitPart r).map (fun p => ((digitsToNat p.1 : ℤ), p.2))
  | '-' :: r => (digitPart r).map (fun p => (-(digitsToNat p.1 : ℤ), p.2))
  | _ => (digitPart cs).map (fun p => ((digitsToNat p.1 : ℤ), p.2))

/-- Case-insensitive full match of the input against a lower-case
pattern (for the `inf` / `infinity` / `nan` spellings). -/
def matchCI : List Char → List Char → Bool
  | [], [] => true
  | p :: ps, c :: cs => p = c.toLower && matchCI ps cs
  | _, _ => false

/-- Strip leading and trailing whitespace, as `float(str)` does. -/
def pyStrip (cs : List Char) : List Char :=
  ((cs.dropWhile Char.isWhitespace).reverse.dropWhile Char.isWhitespace).reverse

/-- Model of CPython `float(s)` on a character list: strip whitespace,
optional sign, then either an inf/nan spelling or a decimal literal
(mantissa and optional exponent), requiring full consumption.  Returns
`none` where `float` raises `ValueError`. -/
def pyFloatChars (cs0 : List Char) : Option PyFloatVal :=
  let cs1 := pyStrip cs0
  let sgn := match cs1 with
    | '+' :: r => (false, r)
    | '-' :: r => (true, r)
    | _ => (false, cs1)
  let neg := sgn.1
  let cs := sgn.2
  if matchCI "inf".data cs || matchCI "infinity".data cs then
    some (if neg then .ninf else .inf)
  else if matchCI "nan".data cs then
    some .nan
  else
    match parseMantissa cs with
    | none => none
    | some (m, rest) =>
      match rest with
      | [] => some (.finite (litVal neg m 0))
      | e :: rest2 =>
        if e = 'e' || e = 'E' then
          match parseSignedDigits rest2 with
          | some (ex, []) => some (.finite (litVal neg m ex))
          | _ => none
        else none

/-- Model of CPython `float(s)` on a string. -/
def pyFloat (s : String) : Option PyFloatVal := pyFloatChars s.data

/-- Exact division of a rational by 100, written on the
numerator/denominator representation so that it evaluates by kernel
reduction. -/
def ratDiv100 (q : ℚ) : ℚ := mkRat q.num (q.den * 100)

/-- Division of a parsed float by `100.0` (`raw_temp / 100.0`). -/
def pyDiv100 : PyFloatVal → PyFloatVal
  | .finite q => .finite (ratDiv100 q)
  | .inf => .inf
  | .ninf => .ninf
  | .nan => .nan

/-- The `last_seen` value a zone dict can hold: the extraction
timestamp, or the literal string `"Unknown"` substituted by the
coordinator when the timestamp is missing. -/
inductive LastSeen (τ : Type)
  | time (t : τ)
  | unknown
deriving DecidableEq, Repr

/-- The zone dict built by `extract_zone_data`: keys `id`, `name`,
`current_temperature`, `target_temperature` are present from the start
(`None` modelled as `none` for the temperatures); `timestamp` and
`last_seen` are added later, so their absence is an outer `Option`. -/
structure ZoneData (τ : Type) where
  id : String
  name : String
  current_temperature : Option PyFloatVal
  target_temperature : Option PyFloatVal
  timestamp : Option τ
  last_seen : Option (LastSeen τ)
deriving DecidableEq, Repr

/-- `zone_id.replace("G", "")`: remove every occurrence of the
single-character substring `G`. -/
def zoneNum (zoneId : String) : String := ⟨zoneId.data.filter (fun c => c ≠ 'G')⟩

/-- The register key `f"G{zone_num}.RaumTemp"` for a zone id. -/
def currentTempKey (zoneId : String) : String := "G" ++ zoneNum zoneId ++ ".RaumTemp"

/-- The register key `f"G{zone_num}.SollTemp"` for a zone id. -/
def targetTempKey (zoneId : String) : String := "G" ++ zoneNum zoneId ++ ".SollTemp"

/-- The register key `f"G{zone_num}.name"` for a zone id. -/
def nameKey (zoneId : String) : String := "G" ++ zoneNum zoneId ++ ".name"

/-- The initial dict literal of `extract_zone_data`: id, default name
`f"Zone {zone_id}"`, and both temperatures `None`. -/
def initZone {τ : Type} (zoneId : String) : ZoneData τ :=
  { id := zoneId
    name := "Zone " ++ zoneId
    current_temperature := none
    target_temperature := none
    timestamp := none
    last_seen := none }

/-- The `RaumTemp` step of `extract_zone_data`: when the key is
present, try `float(...)`; on success store the value divided by 100,
on `ValueError` log and leave the field as it was. -/
def applyCurrent {τ : Type} (values : RawValueMap) (zoneId : String) (zd : ZoneData τ) :
    ZoneData τ :=
  match dictLookup values (currentTempKey zoneId) with
  | some raw =>
    match pyFloat raw with
    | some v => { zd with current_temperature := some (pyDiv100 v) }
    | none => zd
  | none => zd

/-- The `SollTemp` step of `extract_zone_data`, identical to the
`RaumTemp` step but for the target temperature. -/
def applyTarget {τ : Type} (values : RawValueMap) (zoneId : String) (zd : ZoneData τ) :
    ZoneData τ :=
  match dictLookup values (targetTempKey zoneId) with
  | some raw =>
    match pyFloat raw with
    | some v => { zd with target_temperature := some (pyDiv100 v) }
    | none => zd
  | none => zd

/-- The name step of `extract_zone_data`:
`if name_key in values and values[name_key]:` — the stored name must be
present and truthy (non-empty) to replace the default. -/
def applyName {τ : Type} (values : RawValueMap) (zoneId : String) (zd : ZoneData τ) :
    ZoneData τ :=
  match dictLookup values (nameKey zoneId) with
  | some s => if s.isEmpty then zd else { zd with name := s }
  | none => zd

/-- The timestamp step of `extract_zone_data`: `timestamp` and
`last_seen` are both set to the current UTC time. -/
def applyTimestamps {τ : Type} (now : τ) (zd : ZoneData τ) : ZoneData τ :=
  { zd with timestamp := some now, last_seen := some (.time now) }

/-- `RothTouchlineXMLParser.extract_zone_data`, with the current UTC
time passed in as `now`.  The steps run in source order: current
temperature, target temperature, name, timestamps. -/
def extract_zone_data {τ : Type} (values : RawValueMap) (zoneId : String) (now : τ) :
    ZoneData τ :=
  applyTimestamps now
    (applyName values zoneId
      (applyTarget values zoneId
        (applyCurrent values zoneId (initZone zoneId))))

/-- A zone descriptor produced by `get_available_zones`:
`{"id": ..., "name": ..., "number": ...}`. -/
structure ZoneDescr where
  id : String
  name : String
  number : ℕ
deriving DecidableEq, Repr

/-- `RothTouchlineXMLParser.get_available_zones`: loop
`for zone_num in range(max_zones)` appending a descriptor whenever one
of the three registers of the zone is a key of `values`; the name
defaults to `f"Zone {zone_num}"`. -/
def get_available_zones (values : RawValueMap) (maxZones : ℕ) : List ZoneDescr :=
  (List.range maxZones).foldl
    (fun zones zone_num =>
      let has_temp := (dictLookup values ("G" ++ toString zone_num ++ ".RaumTemp")).isSome
      let has_setpoint := (dictLookup values ("G" ++ toString zone_num ++ ".SollTemp")).isSome
      let has_name := (dictLookup values ("G" ++ toString zone_num ++ ".name")).isSome
      if has_temp || has_setpoint || has_name then
        zones ++ [{ id := "G" ++ toString zone_num
                    name := (dictLookup values ("G" ++ toString zone_num ++ ".name")).getD
                      ("Zone " ++ toString zone_num)
                    number := zone_num }]
      else zones)
    []

/-- Spec-side restatement of `get_available_zones` (used to compare the
source loop with the claim's wording): for each index below `maxZones`,
the zone is listed exactly when one of its three registers is present,
in ascending index order, with the name defaulting when absent. -/
def availableZonesSpec (values : RawValueMap) (maxZones : ℕ) : List ZoneDescr :=
  (List.range maxZones).filterMap
    (fun n =>
      if ((dictLookup values ("G" ++ toString n ++ ".RaumTemp")).isSome
          || (dictLookup values ("G" ++ toString n ++ ".SollTemp")).isSome
          || (dictLookup values ("G" ++ toString n ++ ".name")).isSome) then
        some { id := "G" ++ toString n
               name := (dictLookup values ("G" ++ toString n ++ ".name")).getD
                 ("Zone " ++ toString n)
               number := n }
      else none)

/-- One `<i><n>item</n></i>` entry of the request document. -/
def mkRequestItem (it : String) : Element :=
  { tag := "i", text := none
    children := [{ tag := "n", text := some it, children := [] }] }

/-- `RothTouchlineXMLParser.create_request_xml` as an element tree:
root `body`, child `item_list`, one `i` child per requested item each
holding an `n` child whose text is the item. -/
def create_request_xml (items : List String) : Element :=
  { tag := "body", text := none
    children := [{ tag := "item_list", text := none
                   children := items.map mkRequestItem }] }

/-- `ET` text escaping (`&`, `<`, `>`). -/
def escapeXmlText (s : String) : String :=
  ⟨s.data.foldr
    (fun c acc =>
      (if c = '&' then "&amp;".data
       else if c = '<' then "&lt;".data
       else if c = '>' then "&gt;".data
       else [c]) ++ acc)
    []⟩

mutual

/-- `ET.tostring(root, encoding="unicode")` on the modelled elements
(no attributes, no tails): an element with falsy text and no children
serializes as `<tag />`, otherwise as start tag, escaped text, child
serializations and end tag.  No XML declaration is emitted for
`encoding="unicode"`. -/
def serialize (e : Element) : String :=
  if !(pyTruthyText e.text) && e.children.isEmpty then
    "<" ++ e.tag ++ " />"
  else
    "<" ++ e.tag ++ ">" ++ escapeXmlText (e.text.getD "")
      ++ serializeChildren e.children ++ "</" ++ e.tag ++ ">"
termination_by sizeOf e
decreasing_by
  cases e
  simp

/-- Serialization of a child list, in order. -/
def serializeChildren : List Element → String
  | [] => ""
  | c :: cs => serialize c ++ serializeChildren cs
termination_by l => sizeOf l
decreasing_by
  · simp
    omega
  · simp

end

/-- Re-extraction of the requested register names from a request
document: the text of every descendant `n` element, in document
order. -/
def extractRequestItems (e : Element) : List String :=
  ((findall "n" e).filterMap Element.text)

/-- A name/value pair written with the `item`/`name`/`value` element
spelling. -/
def longPair (nm v : String) : Element :=
  { tag := "item", text := none
    children := [{ tag := "name", text := some nm, children := [] },
                 { tag := "value", text := some v, children := [] }] }

/-- A name/value pair written with the abbreviated `i`/`n`/`v` element
spelling. -/
def shortPair (nm v : String) : Element :=
  { tag := "i", text := none
    children := [{ tag := "n", text := some nm, children := [] },
                 { tag := "v", text := some v, children := [] }] }

/-- A response document whose pairs all use the `item`/`name`/`value`
spelling. -/
def longDoc (ps : List (String × String)) : Element :=
  { tag := "body", text := none, children := ps.map (fun p => longPair p.1 p.2) }

/-- A response document with the same logical content as
`longDoc ps`, but using the abbreviated `i`/`n`/`v` spelling. -/
def shortDoc (ps : List (String × String)) : Element :=
  { tag := "body", text := none, children := ps.map (fun p => shortPair p.1 p.2) }

/-- The error type `homeassistant.exceptions.HomeAssistantError`
(raised by the hub with a message). -/
structure HomeAssistantError where
  msg : String
deriving DecidableEq, Repr

/-- Outcome of one HTTP POST issued by the hub: a response carrying a
status code and a body (the body is represented by the outcome of
`ET.fromstring` on the response text), an `asyncio.TimeoutError`, or an
`aiohttp.ClientError`. -/
inductive HTTPOutcome
  | response (status : ℕ) (body : Except ParseError Element)
  | timeout
  | clientError

/-- `RothTouchlineHub.test_connection` as a function of the HTTP
outcome: `True` on status 200, `False` on any other status, and a
`HomeAssistantError` on timeout or client error. -/
def test_connection : HTTPOutcome → Except HomeAssistantError Bool
  | .response status _ => if status = 200 then .ok true else .ok false
  | .timeout => .error { msg := "Timeout connecting to device" }
  | .clientError => .error { msg := "Cannot connect to device" }

/-- `RothTouchlineHub.get_zone_data` as a function of the HTTP outcome:
on status 200 parse the body and extract the zone's data; on any other
status, on timeout and on client error return `None`. -/
def get_zone_data {τ : Type} (zoneId : String) (outcome : HTTPOutcome) (now : τ) :
    Option (ZoneData τ) :=
  match outcome with
  | .response status body =>
    if status = 200 then
      some (extract_zone_data (parse_values_response body) zoneId now)
    else none
  | .timeout => none
  | .clientError => none

/-- The coordinator's per-zone post-processing:
`zone_data["last_seen"] = zone_data.get("timestamp") or "Unknown"` —
the timestamp when present (a datetime is always truthy), otherwise the
string `"Unknown"`. -/
def coordinatorFinalize {τ : Type} (zd : ZoneData τ) : ZoneData τ :=
  { zd with last_seen := some (match zd.timestamp with
      | some t => .time t
      | none => .unknown) }

/-- `RothTouchlineDataUpdateCoordinator._async_update_data`, given the
descriptors returned by a successful `get_zones` and the per-zone
outcome of `get_zone_data` (which swallows its own failures into
`None`).  A fresh `data = {}` dict is built each cycle; a zone is added
only when its id is truthy and its fetch returned a value (the returned
dict is never empty, i.e. always truthy). -/
def async_update_data {τ : Type} (zones : List ZoneDescr)
    (fetch : String → Option (ZoneData τ)) : List (String × ZoneData τ) :=
  zones.foldl
    (fun data zone =>
      if zone.id.isEmpty then data
      else
        match fetch zone.id with
        | some zone_data => dictInsert data zone.id (coordinatorFinalize zone_data)
        | none => data)
    []

theorem dictLookup_cons {α : Type} (p : String × α) (m : List (String × α)) (key : String) :
    dictLookup (p :: m) key = if p.1 = key then some p.2 else dictLookup m key := by
  by_cases h : p.1 = key <;> simp [dictLookup, List.find?_cons, h]

theorem dictLookup_append_single {α : Type} (m : List (String × α)) (k key : String) (v : α)
    (hk : m.any (fun p => p.1 = k) = false) :
    dictLookup (m ++ [(k, v)]) key = if key = k then some v else dictLookup m key := by
  induction m with
  | nil =>
    by_cases h : key = k
    · simp [dictLookup, List.find?_cons, h]
    · have h' : ¬(k = key) := fun h' => h h'.symm
      simp [dictLookup, List.find?_cons, h, h']
  | cons p m ih =>
    simp only [List.any_cons, Bool.or_eq_false_iff, decide_eq_false_iff_not] at hk
    rw [List.cons_append, dictLookup_cons, dictLookup_cons,
      ih (by simpa using hk.2)]
    by_cases hp : p.1 = key
    · have hkk : ¬(key = k) := fun hkk => hk.1 (hp.trans hkk)
      simp [hp, hkk]
    · simp [hp]

theorem dictLookup_map_update {α : Type} (m : List (String × α)) (k key : String) (v : α) :
    dictLookup (m.map (fun p => if p.1 = k then (k, v) else p)) key
      = if key = k then (dictLookup m k).map (fun _ => v) else dictLookup m key := by
  by_cases hkey : key = k
  · subst hkey
    simp only [if_pos rfl]
    induction m with
    | nil => simp [dictLookup]
    | cons p m ih =>
      by_cases hp : p.1 = key
      · simp [dictLookup_cons, hp]
      · simp [dictLookup_cons, hp, ih]
  · simp only [if_neg hkey]
    induction m with
    | nil => simp [dictLookup]
    | cons p m ih =>
      by_cases hp : p.1 = k
      · have hpkey : ¬(p.1 = key) := fun h => hkey (h.symm.trans hp)
        have hkkey : ¬(k = key) := fun h => hkey h.symm
        simp [dictLookup_cons, hp, hpkey, hkkey, ih]
      · by_cases hpkey : p.1 = key
        · simp [dictLookup_cons, hp, hpkey, hkey]
        · simp [dictLookup_cons, hp, hpkey, ih]

theorem isSome_dictLookup_of_any {α : Type} (m : List (String × α)) (k : String)
    (h : m.any (fun p => p.1 = k) = true) : (dictLookup m k).isSome = true := by
  induction m with
  | nil => simp at h
  | cons p m ih =>
    rw [dictLookup_cons]
    simp only [List.any_cons, Bool.or_eq_true, decide_eq_true_eq] at h
    rcases h with h | h
    · simp [h]
    · by_cases hp : p.1 = k <;> simp [hp, ih h]

/-- Python-dict lookup after insertion: the inserted key now maps to
the inserted value, all other keys are unchanged. -/
theorem dictLookup_dictInsert {α : Type} (m : List (String × α)) (k key : String) (v : α) :
    dictLookup (dictInsert m k v) key = if key = k then some v else dictLookup m key := by
  unfold dictInsert
  by_cases hany : m.any (fun p => p.1 = k) = true
  · rw [if_pos hany, dictLookup_map_update]
    by_cases hkey : key = k
    · have hs := isSome_dictLookup_of_any m k hany
      cases hlk : dictLookup m k with
      | none => rw [hlk] at hs; simp at hs
      | some w => simp [hkey, hlk]
    · simp [hkey]
  · rw [if_neg hany, dictLookup_append_single m k key v (Bool.eq_false_iff.mpr hany)]

/-- The loop body of `parse_values_response` inserts exactly the pair
described by `matchedPair`, when there is one. -/
theorem processItem_eq (m : RawValueMap) (item : Element) :
    processItem m item
      = match matchedPair item with
        | some p => dictInsert m p.1 p.2
        | none => m := by
  unfold processItem matchedPair
  cases pyOrElem (findChild "name" item) (findChild "n" item) with
  | none => cases pyOrElem (findChild "value" item) (findChild "v" item) <;> rfl
  | some ne =>
    cases pyOrElem (findChild "value" item) (findChild "v" item) with
    | none => rfl
    | some ve =>
      by_cases h : (pyTruthyText ne.text && pyTruthyText ve.text) = true <;> simp [h]

/-- Folding the loop body over a list of item elements: a key's final
value is the value of the last matched pair carrying that key, and
keys never matched keep their value from the accumulator. -/
theorem dictLookup_foldl_processItem (items : List Element) :
    ∀ (acc : RawValueMap) (key : String),
      dictLookup (items.foldl processItem acc) key
        = match (items.filterMap matchedPair).reverse.find? (fun p => p.1 = key) with
          | some p => some p.2
          | none => dictLookup acc key := by
  induction items with
  | nil =>
    intro acc key
    rfl
  | cons it rest ih =>
    intro acc key
    rw [List.foldl_cons, ih, List.filterMap_cons]
    cases hmp : matchedPair it with
    | none =>
      rw [processItem_eq, hmp]
    | some p =>
      simp only [List.reverse_append, List.reverse_cons, List.reverse_nil,
        List.nil_append, List.find?_append]
      rw [processItem_eq, hmp]
      cases hfind : (rest.filterMap matchedPair).reverse.find? (fun q => q.1 = key) with
      | some q => simp [hfind]
      | none =>
        simp only [hfind, Option.none_orElse]
        rw [dictLookup_dictInsert]
        by_cases hp : p.1 = key
        · rw [if_pos hp.symm]
          simp [List.find?_cons, hp]
        · rw [if_neg (fun h => hp h.symm)]
          simp [List.find?_cons, hp]

@[simp] theorem applyTimestamps_id {τ : Type} (now : τ) (zd : ZoneData τ) :
    (applyTimestamps now zd).id = zd.id := rfl

@[simp] theorem applyTimestamps_name {τ : Type} (now : τ) (zd : ZoneData τ) :
    (applyTimestamps now zd).name = zd.name := rfl

@[simp] theorem applyTimestamps_current {τ : Type} (now : τ) (zd : ZoneData τ) :
    (applyTimestamps now zd).current_temperature = zd.current_temperature := rfl

@[simp] theorem applyTimestamps_target {τ : Type} (now : τ) (zd : ZoneData τ) :
    (applyTimestamps now zd).target_temperature = zd.target_temperature := rfl

@[simp] theorem applyTimestamps_timestamp {τ : Type} (now : τ) (zd : ZoneData τ) :
    (applyTimestamps now zd).timestamp = some now := rfl

@[simp] theorem applyName_id {τ : Type} (values : RawValueMap) (zoneId : String)
    (zd : ZoneData τ) : (applyName values zoneId zd).id = zd.id := by
  unfold applyName
  cases dictLookup values (nameKey zoneId) with
  | none => rfl
  | some s => by_cases h : s.isEmpty = true <;> simp [h]

@[simp] theorem applyName_current {τ : Type} (values : RawValueMap) (zoneId : String)
    (zd : ZoneData τ) :
    (applyName values zoneId zd).current_temperature = zd.current_temperature := by
  unfold applyName
  cases dictLookup values (nameKey zoneId) with
  | none => rfl
  | some s => by_cases h : s.isEmpty = true <;> simp [h]

@[simp] theorem applyName_target {τ : Type} (values : RawValueMap) (zoneId : String)
    (zd : ZoneData τ) :
    (applyName values zoneId zd).target_temperature = zd.target_temperature := by
  unfold applyName
  cases dictLookup values (nameKey zoneId) with
  | none => rfl
  | some s => by_cases h : s.isEmpty = true <;> simp [h]

@[simp] theorem applyTarget_id {τ : Type} (values : RawValueMap) (zoneId : String)
    (zd : ZoneData τ) : (applyTarget values zoneId zd).id = zd.id := by
  unfold applyTarget
  repeat' split
  all_goals rfl

@[simp] theorem applyTarget_name {τ : Type} (values : RawValueMap) (zoneId : String)
    (zd : ZoneData τ) : (applyTarget values zoneId zd).name = zd.name := by
  unfold applyTarget
  repeat' split
  all_goals rfl

@[simp] theorem applyTarget_current {τ : Type} (values : RawValueMap) (zoneId : String)
    (zd : ZoneData τ) :
    (applyTarget values zoneId zd).current_temperature = zd.current_temperature := by
  unfold applyTarget
  repeat' split
  all_goals rfl

@[simp] theorem applyCurrent_id {τ : Type} (values : RawValueMap) (zoneId : String)
    (zd : ZoneData τ) : (applyCurrent values zoneId zd).id = zd.id := by
  unfold applyCurrent
  repeat' split
  all_goals rfl

@[simp] theorem applyCurrent_name {τ : Type} (values : RawValueMap) (zoneId : String)
    (zd : ZoneData τ) : (applyCurrent values zoneId zd).name = zd.name := by
  unfold applyCurrent
  repeat' split
  all_goals rfl

@[simp] theorem applyCurrent_target {τ : Type} (values : RawValueMap) (zoneId : String)
    (zd : ZoneData τ) :
    (applyCurrent values zoneId zd).target_temperature = zd.target_temperature := by
  unfold applyCurrent
  repeat' split
  all_goals rfl

/-- The id of an extracted zone dict is the requested zone id. -/
theorem extract_id {τ : Type} (values : RawValueMap) (zoneId : String) (now : τ) :
    (extract_zone_data values zoneId now).id = zoneId := by
  simp [extract_zone_data, initZone]

/-- Current temperature when the register is absent. -/
theorem extract_current_of_absent {τ : Type} (values : RawValueMap) (zoneId : String)
    (now : τ) (h : dictLookup values (currentTempKey zoneId) = none) :
    (extract_zone_data values zoneId now).current_temperature = none := by
  simp [extract_zone_data, applyCurrent, initZone, h]

/-- Current temperature when the raw value fails `float(...)`. -/
theorem extract_current_of_badfloat {τ : Type} (values : RawValueMap) (zoneId : String)
    (now : τ) (raw : String) (h : dictLookup values (currentTempKey zoneId) = some raw)
    (hf : pyFloat raw = none) :
    (extract_zone_data values zoneId now).current_temperature = none := by
  simp [extract_zone_data, applyCurrent, initZone, h, hf]

/-- Current temperature when the raw value parses: the parsed float
divided by 100. -/
theorem extract_current_of_float {τ : Type} (values : RawValueMap) (zoneId : String)
    (now : τ) (raw : String) (v : PyFloatVal)
    (h : dictLookup values (currentTempKey zoneId) = some raw)
    (hf : pyFloat raw = some v) :
    (extract_zone_data values zoneId now).current_temperature = some (pyDiv100 v) := by
  simp [extract_zone_data, applyCurrent, initZone, h, hf]

/-- Target temperature when the register is absent. -/
theorem extract_target_of_absent {τ : Type} (values : RawValueMap) (zoneId : String)
    (now : τ) (h : dictLookup values (targetTempKey zoneId) = none) :
    (extract_zone_data values zoneId now).target_temperature = none := by
  simp [extract_zone_data, applyTarget, initZone, h]

/-- Target temperature when the raw value parses. -/
theorem extract_target_of_float {τ : Type} (values : RawValueMap) (zoneId : String)
    (now : τ) (raw : String) (v : PyFloatVal)
    (h : dictLookup values (targetTempKey zoneId) = some raw)
    (hf : pyFloat raw = some v) :
    (extract_zone_data values zoneId now).target_temperature = some (pyDiv100 v) := by
  simp [extract_zone_data, applyTarget, initZone, h, hf]

/-- The name when the register holds a non-empty string. -/
theorem extract_name_of_present {τ : Type} (values : RawValueMap) (zoneId : String)
    (now : τ) (s : String) (h : dictLookup values (nameKey zoneId) = some s)
    (hs : s.isEmpty = false) :
    (extract_zone_data values zoneId now).name = s := by
  simp [extract_zone_data, applyName, h, hs]

/-- The default name when the register is absent. -/
theorem extract_name_of_absent {τ : Type} (values : RawValueMap) (zoneId : String)
    (now : τ) (h : dictLookup values (nameKey zoneId) = none) :
    (extract_zone_data values zoneId now).name = "Zone " ++ zoneId := by
  simp [extract_zone_data, applyName, h, initZone]

/-- The default name when the register holds the empty string. -/
theorem extract_name_of_empty {τ : Type} (values : RawValueMap) (zoneId : String)
    (now : τ) (h : dictLookup values (nameKey zoneId) = some "") :
    (extract_zone_data values zoneId now).name = "Zone " ++ zoneId := by
  have he : ("" : String).isEmpty = true := rfl
  simp [extract_zone_data, applyName, h, he, initZone]

/-- The descendants of the request's `i` elements are the `i` elements
interleaved with their `n` children, in order. -/
theorem descendants_map_request (items : List String) :
    descendantsAll (items.map mkRequestItem)
      = items.flatMap (fun it =>
          [mkRequestItem it, { tag := "n", text := some it, children := [] }]) := by
  induction items with
  | nil => simp [descendantsAll]
  | cons it rest ih => simp [descendantsAll, mkRequestItem, ih]

/-- Collecting the texts of the `n` descendants of the request document
recovers the requested items in order. -/
theorem extractRequestItems_create (items : List String) :
    extractRequestItems (create_request_xml items) = items := by
  unfold extractRequestItems findall create_request_xml
  simp only [descendantsAll, descendants_map_request, List.append_nil]
  induction items with
  | nil => rfl
  | cons it rest ih =>
    simpa [mkRequestItem] using ih

/-- A fold that appends an optional element per input is a
`filterMap`. -/
theorem foldl_toList_eq_filterMap {α β : Type} (step : List β → α → List β)
    (g : α → Option β) (h : ∀ bs a, step bs a = bs ++ (g a).toList) :
    ∀ (l : List α) (acc : List β), l.foldl step acc = acc ++ l.filterMap g := by
  intro l
  induction l with
  | nil =>
    intro acc
    simp
  | cons a l ih =>
    intro acc
    rw [List.foldl_cons, h, ih, List.filterMap_cons]
    cases g a <;> simp

/-- The serialized request document starts with the root start tag
`<body>` (in particular there is no XML declaration in front of it). -/
theorem serialize_create_prefixed (items : List String) :
    ∃ r : String, serialize (create_request_xml items) = "<body>" ++ r := by
  refine ⟨escapeXmlText ""
    ++ serializeChildren [Element.mk "item_list" none (items.map mkRequestItem)]
    ++ "</" ++ "body" ++ ">", ?_⟩
  rw [serialize]
  rfl

/-- Target temperature when the raw value fails `float(...)`. -/
theorem extract_target_of_badfloat {τ : Type} (values : RawValueMap) (zoneId : String)
    (now : τ) (raw : String) (h : dictLookup values (targetTempKey zoneId) = some raw)
    (hf : pyFloat raw = none) :
    (extract_zone_data values zoneId now).target_temperature = none := by
  simp [extract_zone_data, applyTarget, initZone, h, hf]

/-- The source loop of `get_available_zones` computes exactly the
`filterMap` formulation `availableZonesSpec`. -/
theorem get_available_zones_eq_spec (values : RawValueMap) (maxZones : ℕ) :
    get_available_zones values maxZones = availableZonesSpec values maxZones := by
  unfold get_available_zones availableZonesSpec
  rw [foldl_toList_eq_filterMap _
    (fun n =>
      if ((dictLookup values ("G" ++ toString n ++ ".RaumTemp")).isSome
          || (dictLookup values ("G" ++ toString n ++ ".SollTemp")).isSome
          || (dictLookup values ("G" ++ toString n ++ ".name")).isSome) then
        some { id := "G" ++ toString n
               name := (dictLookup values ("G" ++ toString n ++ ".name")).getD
                 ("Zone " ++ toString n)
               number := n }
      else none)
    ?_ (List.range maxZones) []]
  · simp
  · intro bs n
    by_cases h : ((dictLookup values ("G" ++ toString n ++ ".RaumTemp")).isSome
        || (dictLookup values ("G" ++ toString n ++ ".SollTemp")).isSome
        || (dictLookup values ("G" ++ toString n ++ ".name")).isSome) = true
    · simp only [h]
      simp
    · simp only [h]
      simp [h]

/-- C1: the claim states that the `item`/`name`/`value` and `i`/`n`/`v`
spellings are interchangeable for `parse_values_response`.  Evaluating
the parser on two documents of identical logical content (one pair,
name `a`, value `1`) shows they are not: the `item`/`name`/`value`
document yields the empty map — `item.find("name") or item.find("n")`
discards the found childless `name` element because `ElementTree`
elements without children are falsy — while the `i`/`n`/`v` document
yields the pair. -/
theorem parse_spelling_divergence :
    parse_values_response (.ok (longDoc [("a", "1")])) = []
    ∧ parse_values_response (.ok (shortDoc [("a", "1")])) = [("a", "1")] := by
  constructor
  · simp [parse_values_response, itemsOf, findall, descendantsAll, processItem,
      pyOrElem, pyTruthyElem, pyTruthyText, findChild, dictInsert, longDoc, longPair,
      List.find?]
  · simp [parse_values_response, itemsOf, findall, descendantsAll, processItem,
      pyOrElem, pyTruthyElem, pyTruthyText, findChild, dictInsert, shortDoc, shortPair,
      List.find?]
    exact ⟨rfl, rfl⟩

/-- C3: when `ET.fromstring` fails (malformed XML, the empty string,
arbitrary non-XML text), `parse_values_response` catches the error and
returns the empty map; no exception escapes. -/
theorem parse_malformed_returns_empty (err : ParseError) :
    parse_values_response (.error err) = [] := rfl

/-- C9: the result of `parse_values_response` contains exactly the
matched name/value pairs with non-empty name and value texts: looking
up any key yields the value of the last matched non-empty pair with
that name (`none` when there is no such pair — unmatched pairs and
pairs with a missing or empty text are never inserted), so duplicate
names resolve to the last-seen value without the codec failing. -/
theorem parse_matched_last_wins (root : Element) (key : String) :
    dictLookup (parse_values_response (.ok root)) key
      = (((itemsOf root).filterMap matchedPair).reverse.find? (fun p => p.1 = key)).map
          (fun p => p.2) := by
  rw [show parse_values_response (.ok root) = (itemsOf root).foldl processItem [] from rfl,
    dictLookup_foldl_processItem]
  cases ((itemsOf root).filterMap matchedPair).reverse.find? (fun p => p.1 = key) <;> rfl

/-- C4: `create_request_xml` produces the document with root `body`,
single child `item_list`, one `i` child per item; re-extracting the
texts of the `n` descendants yields the original item list in order;
and the serialized output starts with `<body>` — no XML declaration is
emitted. -/
theorem create_request_roundtrip (items : List String) :
    (create_request_xml items).tag = "body"
    ∧ (create_request_xml items).children.map Element.tag = ["item_list"]
    ∧ ((create_request_xml items).children.map (fun il => il.children.map Element.tag))
        = [items.map (fun _ => "i")]
    ∧ extractRequestItems (create_request_xml items) = items
    ∧ ∃ r : String, serialize (create_request_xml items) = "<body>" ++ r := by
  refine ⟨rfl, rfl, ?_, extractRequestItems_create items, serialize_create_prefixed items⟩
  simp only [create_request_xml, mkRequestItem, List.map_cons, List.map_nil, List.map_map]
  rfl

/-- C5 counterexample: the claim says a raw string that is not an
integer numeral fails numeric parsing and leaves the field absent, but
the source parses with `float(...)`: on the non-integer numeral
`"20.5"` the current temperature is present (20.5 / 100 = 0.205), not
absent. -/
theorem extract_float_accepts_noninteger :
    (extract_zone_data [("G2.RaumTemp", "20.5")] "G2" (0 : ℕ)).current_temperature
        = some (PyFloatVal.finite (mkRat 41 200))
    ∧ (extract_zone_data [("G2.RaumTemp", "20.5")] "G2" (0 : ℕ)).current_temperature
        ≠ none := by
  constructor
  · decide
  · decide

/-- C5 (amended): `extract_zone_data` parses the `RaumTemp` and
`SollTemp` raw register strings with Python `float(...)` and divides by
100.0 to obtain degrees Celsius: on the concrete map for zone `G2` it
yields current 20.5, target 21.0 and name `Office`; a raw string that
fails `float` parsing leaves the corresponding field absent. -/
theorem extract_zone_temps_float_scaling {τ : Type} (t : τ) :
    (extract_zone_data
        [("G2.RaumTemp", "2050"), ("G2.SollTemp", "2100"), ("G2.name", "Office")]
        "G2" t).current_temperature = some (PyFloatVal.finite (mkRat 41 2))
    ∧ (extract_zone_data
        [("G2.RaumTemp", "2050"), ("G2.SollTemp", "2100"), ("G2.name", "Office")]
        "G2" t).target_temperature = some (PyFloatVal.finite 21)
    ∧ (extract_zone_data
        [("G2.RaumTemp", "2050"), ("G2.SollTemp", "2100"), ("G2.name", "Office")]
        "G2" t).name = "Office"
    ∧ (∀ (values : RawValueMap) (zoneId raw : String),
        dictLookup values (currentTempKey zoneId) = some raw → pyFloat raw = none →
        (extract_zone_data values zoneId t).current_temperature = none)
    ∧ (∀ (values : RawValueMap) (zoneId raw : String),
        dictLookup values (targetTempKey zoneId) = some raw → pyFloat raw = none →
        (extract_zone_data values zoneId t).target_temperature = none) := by
  refine ⟨?_, ?_, ?_, ?_, ?_⟩
  · rw [extract_current_of_float _ _ _ "2050" (PyFloatVal.finite 2050) (by decide) (by decide)]
    decide
  · rw [extract_target_of_float _ _ _ "2100" (PyFloatVal.finite 2100) (by decide) (by decide)]
    decide
  · exact extract_name_of_present _ _ _ "Office" (by decide) (by decide)
  · intro values zoneId raw h hf
    exact extract_current_of_badfloat values zoneId t raw h hf
  · intro values zoneId raw h hf
    exact extract_target_of_badfloat values zoneId t raw h hf

/-- Witness for the amended C5 theorem at concrete inputs: the concrete
map evaluates as stated, and a non-numeric raw value (`"abc"`) leaves
the corresponding temperature absent. -/
theorem extract_zone_temps_float_scaling_witness :
    (extract_zone_data
        [("G2.RaumTemp", "2050"), ("G2.SollTemp", "2100"), ("G2.name", "Office")]
        "G2" (0 : ℕ)).current_temperature = some (PyFloatVal.finite (mkRat 41 2))
    ∧ (extract_zone_data [("G2.RaumTemp", "abc")] "G2" (0 : ℕ)).current_temperature = none
    ∧ (extract_zone_data [("G2.SollTemp", "abc")] "G2" (0 : ℕ)).target_temperature = none := by
  have h := extract_zone_temps_float_scaling (0 : ℕ)
  exact ⟨h.1,
    h.2.2.2.1 [("G2.RaumTemp", "abc")] "G2" "abc" (by decide) (by decide),
    h.2.2.2.2 [("G2.SollTemp", "abc")] "G2" "abc" (by decide) (by decide)⟩

/-- C6: when the zone's `RaumTemp` value fails `float` parsing, the
current temperature is left absent, while the target temperature is
still returned when `SollTemp` is present and numeric and the name is
still returned when present and non-empty; the extraction itself is a
total function, so one bad field never discards the rest of the record
and never raises. -/
theorem extract_partial_field_tolerance {τ : Type} (t : τ) (values : RawValueMap)
    (zoneId raw : String)
    (h1 : dictLookup values (currentTempKey zoneId) = some raw)
    (h2 : pyFloat raw = none) :
    (extract_zone_data values zoneId t).current_temperature = none
    ∧ (∀ (sraw : String) (v : PyFloatVal),
        dictLookup values (targetTempKey zoneId) = some sraw → pyFloat sraw = some v →
        (extract_zone_data values zoneId t).target_temperature = some (pyDiv100 v))
    ∧ (∀ nm : String,
        dictLookup values (nameKey zoneId) = some nm → nm.isEmpty = false →
        (extract_zone_data values zoneId t).name = nm) := by
  refine ⟨extract_current_of_badfloat values zoneId t raw h1 h2, ?_, ?_⟩
  · intro sraw v hs hv
    exact extract_target_of_float values zoneId t sraw v hs hv
  · intro nm hn hne
    exact extract_name_of_present values zoneId t nm hn hne

/-- Witness for C6 at a concrete map: a bad `RaumTemp` leaves the
current temperature absent while target and name survive. -/
theorem extract_partial_field_tolerance_witness :
    (extract_zone_data
        [("G2.RaumTemp", "x"), ("G2.SollTemp", "2100"), ("G2.name", "Office")]
        "G2" (0 : ℕ)).current_temperature = none
    ∧ (extract_zone_data
        [("G2.RaumTemp", "x"), ("G2.SollTemp", "2100"), ("G2.name", "Office")]
        "G2" (0 : ℕ)).target_temperature = some (pyDiv100 (PyFloatVal.finite 2100))
    ∧ (extract_zone_data
        [("G2.RaumTemp", "x"), ("G2.SollTemp", "2100"), ("G2.name", "Office")]
        "G2" (0 : ℕ)).name = "Office" := by
  have h := extract_partial_field_tolerance (0 : ℕ)
    [("G2.RaumTemp", "x"), ("G2.SollTemp", "2100"), ("G2.name", "Office")]
    "G2" "x" (by decide) (by decide)
  exact ⟨h.1,
    h.2.1 "2100" (PyFloatVal.finite 2100) (by decide) (by decide),
    h.2.2 "Office" (by decide) (by decide)⟩

/-- C7: `get_available_zones` returns, in ascending index order,
exactly the zones with index below `maxZones` for which at least one of
the three registers is a key of the map, with the name defaulting to
`"Zone <index>"` when the name key is absent (the `filterMap`
formulation `availableZonesSpec` states exactly this); in particular
with `maxZones = 3` and a map containing only `G1.name` it returns
exactly the one zone `G1`. -/
theorem available_zones_characterization (values : RawValueMap) (maxZones : ℕ) :
    get_available_zones values maxZones = availableZonesSpec values maxZones
    ∧ ∀ v : String, get_available_zones [("G1.name", v)] 3
        = [{ id := "G1", name := v, number := 1 }] := by
  refine ⟨get_available_zones_eq_spec values maxZones, ?_⟩
  intro v
  rw [get_available_zones_eq_spec]
  simp +decide [availableZonesSpec, List.range_succ, dictLookup, List.find?]

/-- C8: `test_connection` returns `False` (without raising) on any
non-200 HTTP status — in particular 500 — fails with a
`HomeAssistantError` on a request timeout and on a transport-level
(`aiohttp.ClientError`) failure, and returns `True` exactly on an HTTP
200 response. -/
theorem test_connection_status_behavior :
    (∀ body, test_connection (.response 500 body) = .ok false)
    ∧ test_connection .timeout = .error { msg := "Timeout connecting to device" }
    ∧ test_connection .clientError = .error { msg := "Cannot connect to device" }
    ∧ (∀ (status : ℕ) (body : Except ParseError Element),
        status ≠ 200 → test_connection (.response status body) = .ok false)
    ∧ (∀ (status : ℕ) (body : Except ParseError Element),
        test_connection (.response status body) = .ok true ↔ status = 200) := by
  refine ⟨fun body => rfl, rfl, rfl, ?_, ?_⟩
  · intro status body h
    simp [test_connection, h]
  · intro status body
    by_cases h : status = 200
    · simp [test_connection, h]
    · simp [test_connection, h]

/-- Witness for C8 at concrete outcomes: HTTP 500 gives `False`, HTTP
404 gives `False`, HTTP 200 gives `True`. -/
theorem test_connection_status_behavior_witness :
    test_connection (.response 500 (.error { msg := "x" })) = .ok false
    ∧ test_connection (.response 404 (.error { msg := "x" })) = .ok false
    ∧ test_connection (.response 200 (.error { msg := "x" })) = .ok true := by
  have h := test_connection_status_behavior
  exact ⟨h.1 _,
    h.2.2.2.1 404 (.error { msg := "x" }) (by decide),
    (h.2.2.2.2 200 (.error { msg := "x" })).mpr rfl⟩

/-- C10: `extract_zone_data` is total and always returns a record whose
id is the requested zone id; the name falls back to
`"Zone " ++ zoneId` when the name register is absent or empty; each
temperature is absent when its register is absent; consequently
`get_zone_data` on an HTTP 200 response always returns a zone record
(never absent), namely the extraction of the parsed body. -/
theorem extract_total_get_zone_data {τ : Type} (values : RawValueMap) (zoneId : String)
    (t : τ) :
    (extract_zone_data values zoneId t).id = zoneId
    ∧ (dictLookup values (nameKey zoneId) = none →
        (extract_zone_data values zoneId t).name = "Zone " ++ zoneId)
    ∧ (dictLookup values (nameKey zoneId) = some "" →
        (extract_zone_data values zoneId t).name = "Zone " ++ zoneId)
    ∧ (dictLookup values (currentTempKey zoneId) = none →
        (extract_zone_data values zoneId t).current_temperature = none)
    ∧ (dictLookup values (targetTempKey zoneId) = none →
        (extract_zone_data values zoneId t).target_temperature = none)
    ∧ (∀ body : Except ParseError Element,
        get_zone_data zoneId (.response 200 body) t
          = some (extract_zone_data (parse_values_response body) zoneId t)) := by
  refine ⟨extract_id values zoneId t, ?_, ?_, ?_, ?_, ?_⟩
  · intro h
    exact extract_name_of_absent values zoneId t h
  · intro h
    exact extract_name_of_empty values zoneId t h
  · intro h
    exact extract_current_of_absent values zoneId t h
  · intro h
    exact extract_target_of_absent values zoneId t h
  · intro body
    rfl

/-- Witness for C10 on the empty value map for zone `G2`: the record is
present, keeps the requested id, defaults the name and leaves both
temperatures absent. -/
theorem extract_total_get_zone_data_witness :
    (extract_zone_data [] "G2" (0 : ℕ)).id = "G2"
    ∧ (extract_zone_data [] "G2" (0 : ℕ)).name = "Zone " ++ "G2"
    ∧ (extract_zone_data [] "G2" (0 : ℕ)).current_temperature = none
    ∧ (extract_zone_data [] "G2" (0 : ℕ)).target_temperature = none
    ∧ get_zone_data "G2" (.response 200 (.error { msg := "bad" })) (0 : ℕ)
        = some (extract_zone_data (parse_values_response (.error { msg := "bad" }))
            "G2" (0 : ℕ)) := by
  have h := extract_total_get_zone_data [] "G2" (0 : ℕ)
  exact ⟨h.1, h.2.1 rfl, h.2.2.2.1 rfl, h.2.2.2.2.1 rfl, h.2.2.2.2.2 _⟩

/-- C2: in one coordinator refresh cycle, when `get_zones` succeeded
with two zone descriptors (non-empty ids) and `get_zone_data` returned
absent for exactly one of them, the assembled snapshot — built from a
fresh empty dict, so nothing is carried over from a previous snapshot —
contains exactly the one successful zone keyed by its id, in either
fetch order, and the failed zone's key is absent (no null entry). -/
theorem coordinator_partial_failure_snapshot {τ : Type} (z1 z2 : ZoneDescr)
    (d : ZoneData τ) (fetch : String → Option (ZoneData τ))
    (he1 : z1.id.isEmpty = false) (he2 : z2.id.isEmpty = false)
    (hf1 : fetch z1.id = some d) (hf2 : fetch z2.id = none) :
    async_update_data [z1, z2] fetch = [(z1.id, coordinatorFinalize d)]
    ∧ async_update_data [z2, z1] fetch = [(z1.id, coordinatorFinalize d)]
    ∧ dictLookup (async_update_data [z1, z2] fetch) z2.id = none
    ∧ dictLookup (async_update_data [z2, z1] fetch) z2.id = none := by
  have hne : ¬(z1.id = z2.id) := by
    intro h
    rw [h, hf2] at hf1
    cases hf1
  have ha : async_update_data [z1, z2] fetch = [(z1.id, coordinatorFinalize d)] := by
    unfold async_update_data
    simp [he1, he2, hf1, hf2, dictInsert]
  have hb : async_update_data [z2, z1] fetch = [(z1.id, coordinatorFinalize d)] := by
    unfold async_update_data
    simp [he1, he2, hf1, hf2, dictInsert]
  refine ⟨ha, hb, ?_, ?_⟩
  · rw [ha, dictLookup_cons]
    simp [fun h : z1.id = z2.id => hne h, dictLookup]
  · rw [hb, dictLookup_cons]
    simp [fun h : z1.id = z2.id => hne h, dictLookup]

/-- Witness for C2 at concrete descriptors `G0` (fetch succeeds) and
`G1` (fetch returns absent): the snapshot is exactly the one `G0`
entry and `G1` is absent. -/
theorem coordinator_partial_failure_snapshot_witness :
    async_update_data [ZoneDescr.mk "G0" "Zone 0" 0, ZoneDescr.mk "G1" "Zone 1" 1]
        (fun s => if s = "G0" then
            some (ZoneData.mk "G0" "Zone G0" none none (some 7) (some (LastSeen.time 7)))
          else none)
      = [("G0", coordinatorFinalize
          (ZoneData.mk "G0" "Zone G0" none none (some 7) (some (LastSeen.time 7))))]
    ∧ dictLookup
        (async_update_data [ZoneDescr.mk "G0" "Zone 0" 0, ZoneDescr.mk "G1" "Zone 1" 1]
          (fun s => if s = "G0" then
              some (ZoneData.mk "G0" "Zone G0" none none (some 7) (some (LastSeen.time 7)))
            else none))
        "G1" = none := by
  have h := coordinator_partial_failure_snapshot
    (ZoneDescr.mk "G0" "Zone 0" 0) (ZoneDescr.mk "G1" "Zone 1" 1)
    (ZoneData.mk "G0" "Zone G0" none none (some 7) (some (LastSeen.time 7)))
    (fun s => if s = "G0" then
        some (ZoneData.mk "G0" "Zone G0" none none (some 7) (some (LastSeen.time 7)))
      else none)
    (by decide) (by decide) rfl rfl
  exact ⟨h.1, h.2.2.1⟩

/-- Witness for C3 at a concrete parse failure. -/
theorem parse_malformed_returns_empty_witness :
    parse_values_response (.error { msg := "syntax error: line 1, column 0" }) = [] :=
  parse_malformed_returns_empty { msg := "syntax error: line 1, column 0" }

/-- Witness for C4 at the concrete three-register request list. -/
theorem create_request_roundtrip_witness :
    (create_request_xml ["G0.RaumTemp", "G0.SollTemp", "G0.name"]).tag = "body"
    ∧ extractRequestItems (create_request_xml ["G0.RaumTemp", "G0.SollTemp", "G0.name"])
        = ["G0.RaumTemp", "G0.SollTemp", "G0.name"] :=
  ⟨(create_request_roundtrip ["G0.RaumTemp", "G0.SollTemp", "G0.name"]).1,
   (create_request_roundtrip ["G0.RaumTemp", "G0.SollTemp", "G0.name"]).2.2.2.1⟩

/-- Witness for C7 at the concrete one-name map. -/
theorem available_zones_characterization_witness :
    get_available_zones [("G1.name", "Office")] 3
      = [{ id := "G1", name := "Office", number := 1 }] :=
  (available_zones_characterization [] 0).2 "Office"

/-- Witness for C9 at a concrete document with a duplicated name. -/
theorem parse_matched_last_wins_witness :
    dictLookup (parse_values_response (.ok (shortDoc [("a", "1"), ("a", "3")]))) "a"
      = (((itemsOf (shortDoc [("a", "1"), ("a", "3")])).filterMap matchedPair).reverse.find?
          (fun p => p.1 = "a")).map (fun p => p.2) :=
  parse_matched_last_wins (shortDoc [("a", "1"), ("a", "3")]) "a"

end RothTouchline
